import Mathlib

/-!
Shallow embedding of the nexgen repository's NeXus consistency checker
(`src/nexgen/nxs_check/CheckTristanNexus.py`) and of the scan-range selection
logic of the writer (`src/nexgen/nxs_write/NexusWriter.py`).

Modelling conventions:
* HDF5 string data is stored either as a numpy byte string (written via
  `np.string_`, read back by h5py as Python `bytes`) or as a plain Python
  string (variable-length, read back as `str`).  Python equality between
  `bytes` and `str` is always `False`, so the two forms are distinct
  constructors of `HVal` and `DecidableEq` equality models Python `==`.
* A `KeyError` raised by indexing a missing group/dataset/attribute is
  modelled by an `ok := false` result carrying the file state as mutated so
  far (h5py mutations performed before an exception persist).
* Every correction branch of the source logs what it fixes; the `fixes`
  list records, in source order, which correction branches were taken.
-/

namespace Nexgen

/-- A value stored in an HDF5 dataset or attribute, as h5py presents it on
reading: `bytes` for numpy/fixed byte strings (`np.string_`), `vstr` for
plain Python strings, `num` for scalar numerics, `vec` for numeric arrays. -/
inductive HVal where
  | bytes (s : String)
  | vstr (s : String)
  | num (q : Rat)
  | vec (v : List Rat)
deriving DecidableEq

/-- The attributes attached to one dataset: an association list from
attribute name to value (first binding wins, as in a Python dict). -/
abbrev AttrMap := List (String × HVal)

/-- Reading `m.attrs[k]` as a total lookup: `none` models the `KeyError` case. -/
def getAttr (m : AttrMap) (k : String) : Option HVal :=
  match m with
  | [] => none
  | (k1, v) :: rest => if k1 = k then some v else getAttr rest k

/-- Writing `m.attrs[k] = v`: replace the existing binding for `k`, or append one. -/
def setAttr (m : AttrMap) (k : String) (v : HVal) : AttrMap :=
  match m with
  | [] => [(k, v)]
  | (k1, v1) :: rest => if k1 = k then (k, v) :: rest else (k1, v1) :: setAttr rest k v

/-- Tags for the correction branches of the checker, one per `if`-body that
rewrites (or, for `detZDep`, merely claims to rewrite) part of the file. -/
inductive Fix where
  | definition
  | twoThetaValue
  | detZVector
  | twoThetaDep
  | detZDep
  | sampleDepWrong
  | sampleDepMissing
  | omegaDep
  | kappaDep
  | phiDep
  | samxDep
  | samyDep
  | samzDep
deriving DecidableEq

/-- Result of one check: the (possibly partially) mutated state, the list of
correction branches taken, and `ok := false` when a `KeyError` escaped. -/
structure ChkRes (α : Type) where
  state : α
  fixes : List Fix
  ok : Bool
deriving DecidableEq

/-- Canonical sample dependency target (`CheckTristanNexus.py` lines 79-88). -/
def phiPath : String := "/entry/sample/transformations/phi"

/-- Canonical det_z dependency target (`CheckTristanNexus.py` lines 62-69). -/
def detZDepPath : String := "/entry/instrument/detector/transformations/two_theta/two_theta"

/-- Embedding of `check_definition`, lines 18-23, acting on the value read back from the
`entry/definition` dataset: `definition != "NXmx"` compares the read value
against the plain-string literal, and on mismatch the dataset is deleted and
recreated with `data="NXmx"` (a plain Python string). -/
def checkDefinitionVal (d : HVal) : HVal × List Fix :=
  if d ≠ HVal.vstr "NXmx" then (HVal.vstr "NXmx", [Fix.definition]) else (d, [])

/-- Embedding of `check_definition` on the file: reading a missing `entry/definition`
dataset raises (`ok := false`). -/
def check_definition (d : Option HVal) : ChkRes (Option HVal) :=
  match d with
  | none => ⟨none, [], false⟩
  | some v => ⟨some (checkDefinitionVal v).1, (checkDefinitionVal v).2, true⟩

/-- The `two_theta` (or legacy `twotheta`) group of the detector
transformations: it holds one dataset of the same name, whose scalar value
and attribute dict the checker inspects. -/
structure TTGroup where
  value : Rat
  attrs : AttrMap
deriving DecidableEq

/-- The detector transformations group (`nxtransf`): the two candidate
two-theta groups and the `detector_z/det_z` dataset's attributes.  A `none`
member models the absence of that name (indexing it raises `KeyError`). -/
structure DetTransf where
  two_theta : Option TTGroup
  twotheta : Option TTGroup
  det_z : Option AttrMap
deriving DecidableEq

/-- Lines 34-40: `try: nxtransf["two_theta"] except KeyError:
nxtransf["twotheta"]`.  The `Bool` records which name resolved (`true` for
the primary `two_theta`); `none` models the uncaught second `KeyError`. -/
def resolveTT (g : DetTransf) : Option (Bool × TTGroup) :=
  match g.two_theta with
  | some tt => some (true, tt)
  | none =>
    match g.twotheta with
    | some tt => some (false, tt)
    | none => none

/-- Write the (possibly rewritten) two-theta group back under the name it
was resolved from. -/
def setTT (g : DetTransf) (primary : Bool) (tt : TTGroup) : DetTransf :=
  if primary then { g with two_theta := some tt } else { g with twotheta := some tt }

/-- Lines 41-50: a nonzero two-theta value is fixed by copying every
attribute into a dict, deleting the dataset, recreating it with value
`[(0.0)]` and restoring every attribute. -/
def fixTwoThetaValue (tt : TTGroup) : TTGroup × List Fix :=
  if tt.value ≠ 0 then ({ value := 0, attrs := tt.attrs }, [Fix.twoThetaValue]) else (tt, [])

/-- Lines 52-56: if `np.any(det_z.attrs["vector"] != [0, 0, -1])` the vector
attribute is overwritten with `[0, 0, -1]`.  Reading the attribute raises
when it is absent. -/
def fixDetZVector (dz : AttrMap) : ChkRes AttrMap :=
  match getAttr dz "vector" with
  | none => ⟨dz, [], false⟩
  | some v =>
    if v ≠ HVal.vec [0, 0, -1]
    then ⟨setAttr dz "vector" (HVal.vec [0, 0, -1]), [Fix.detZVector], true⟩
    else ⟨dz, [], true⟩

/-- One axis `depends_on` check: read the attribute (raising when absent),
compare against the canonical byte string and rewrite on mismatch.  Used for
the two-theta base (lines 59-61) and each sample axis (lines 99-120). -/
def fixAxisDep (m : AttrMap) (canonical : String) (tag : Fix) : ChkRes AttrMap :=
  match getAttr m "depends_on" with
  | none => ⟨m, [], false⟩
  | some dep =>
    if dep ≠ HVal.bytes canonical
    then ⟨setAttr m "depends_on" (HVal.bytes canonical), [tag], true⟩
    else ⟨m, [], true⟩

/-- Lines 62-69: the det_z `depends_on` branch.  The source line 67 uses
`==` (a comparison) where an assignment was evidently intended, so the
branch body leaves the state unchanged; only the branch-taken tag (the
"Fixing typo in det_z dependency" log) is recorded. -/
def checkDetZDep (dz : AttrMap) : ChkRes AttrMap :=
  match getAttr dz "depends_on" with
  | none => ⟨dz, [], false⟩
  | some dep =>
    if dep ≠ HVal.bytes detZDepPath
    then ⟨dz, [Fix.detZDep], true⟩
    else ⟨dz, [], true⟩

/-- Embedding of `check_detector_transformations`, lines 27-69, with the source's
statement order: resolve the two-theta name, fix its value, fix the det_z
vector, fix the two-theta base, then the (no-op) det_z dependency branch. -/
def check_detector_transformations (g : DetTransf) : ChkRes DetTransf :=
  match resolveTT g with
  | none => ⟨g, [], false⟩
  | some (primary, tt0) =>
    let r1 := fixTwoThetaValue tt0
    match g.det_z with
    | none => ⟨setTT g primary r1.1, r1.2, false⟩
    | some dz0 =>
      let r2 := fixDetZVector dz0
      if r2.ok = false then
        ⟨{ setTT g primary r1.1 with det_z := some r2.state }, r1.2 ++ r2.fixes, false⟩
      else
      let r3 := fixAxisDep r1.1.attrs "." Fix.twoThetaDep
      if r3.ok = false then
        ⟨{ setTT g primary { r1.1 with attrs := r3.state } with det_z := some r2.state },
          r1.2 ++ r2.fixes ++ r3.fixes, false⟩
      else
      let r4 := checkDetZDep r2.state
      ⟨{ setTT g primary { r1.1 with attrs := r3.state } with det_z := some r4.state },
        r1.2 ++ r2.fixes ++ r3.fixes ++ r4.fixes, r4.ok⟩

/-- The `entry/sample` group: only its `depends_on` dataset is inspected. -/
structure NXSample where
  depends_on : Option HVal
deriving DecidableEq

/-- Embedding of `check_sample_depends_on`, lines 72-89: a missing dataset (`KeyError`)
is created; a present dataset whose value differs from the canonical byte
string is deleted and recreated; a correct one is left untouched. -/
def check_sample_depends_on (s : NXSample) : ChkRes NXSample :=
  match s.depends_on with
  | some dep =>
    if dep ≠ HVal.bytes phiPath
    then ⟨⟨some (HVal.bytes phiPath)⟩, [Fix.sampleDepWrong], true⟩
    else ⟨s, [], true⟩
  | none => ⟨⟨some (HVal.bytes phiPath)⟩, [Fix.sampleDepMissing], true⟩

/-- The `entry/sample/transformations` group: the attribute dicts of the six
goniometer axis datasets. -/
structure SampleTransf where
  omega : AttrMap
  kappa : AttrMap
  phi : AttrMap
  sam_x : AttrMap
  sam_y : AttrMap
  sam_z : AttrMap
deriving DecidableEq

/-- Embedding of `check_I19_dependency_tree`, lines 92-120, in source order (omega,
kappa, phi, sam_x, sam_y, sam_z); a missing `depends_on` attribute raises,
keeping the mutations already made. -/
def check_I19_dependency_tree (t : SampleTransf) : ChkRes SampleTransf :=
  let r1 := fixAxisDep t.omega "." Fix.omegaDep
  if r1.ok = false then ⟨{ t with omega := r1.state }, r1.fixes, false⟩ else
  let r2 := fixAxisDep t.kappa "/entry/sample/transformations/omega" Fix.kappaDep
  if r2.ok = false then
    ⟨{ t with
        omega := r1.state
        kappa := r2.state },
      r1.fixes ++ r2.fixes, false⟩
  else
  let r3 := fixAxisDep t.phi "/entry/sample/transformations/kappa" Fix.phiDep
  if r3.ok = false then
    ⟨{ t with
        omega := r1.state
        kappa := r2.state
        phi := r3.state },
      r1.fixes ++ r2.fixes ++ r3.fixes, false⟩
  else
  let r4 := fixAxisDep t.sam_x "/entry/sample/transformations/sam_y" Fix.samxDep
  if r4.ok = false then
    ⟨{ t with
        omega := r1.state
        kappa := r2.state
        phi := r3.state
        sam_x := r4.state },
      r1.fixes ++ r2.fixes ++ r3.fixes ++ r4.fixes, false⟩
  else
  let r5 := fixAxisDep t.sam_y "/entry/sample/transformations/sam_z" Fix.samyDep
  if r5.ok = false then
    ⟨{ t with
        omega := r1.state
        kappa := r2.state
        phi := r3.state
        sam_x := r4.state
        sam_y := r5.state },
      r1.fixes ++ r2.fixes ++ r3.fixes ++ r4.fixes ++ r5.fixes, false⟩
  else
  let r6 := fixAxisDep t.sam_z phiPath Fix.samzDep
  ⟨{ t with
      omega := r1.state
      kappa := r2.state
      phi := r3.state
      sam_x := r4.state
      sam_y := r5.state
      sam_z := r6.state },
    r1.fixes ++ r2.fixes ++ r3.fixes ++ r4.fixes ++ r5.fixes ++ r6.fixes, r6.ok⟩

/-- The parts of a NeXus file inspected by `run_checks`: the
`entry/definition` value, the two candidate detector transformation groups
(`entry/instrument/detector/transformations` and the legacy
`entry/instrument/transformations`), the sample group and the sample
transformations group. -/
structure NXFile where
  definition : Option HVal
  detPrimary : Option DetTransf
  detLegacy : Option DetTransf
  sample : NXSample
  sampleTransf : SampleTransf
deriving DecidableEq

/-- Lines 141-149 of `run_checks`: `check_detector_transformations` is tried
on the primary group inside `try:`; any `KeyError` (the group itself absent,
or a name missing inside it) falls back to the legacy group, where a
`KeyError` is no longer caught.  Returns (primary slot, legacy slot, fixes,
ok). -/
def detector_phase (p l : Option DetTransf) :
    Option DetTransf × Option DetTransf × List Fix × Bool :=
  match p with
  | some g =>
    let r := check_detector_transformations g
    if r.ok then (some r.state, l, r.fixes, true)
    else
      match l with
      | none => (some r.state, none, r.fixes, false)
      | some g2 =>
        let r2 := check_detector_transformations g2
        (some r.state, some r2.state, r.fixes ++ r2.fixes, r2.ok)
  | none =>
    match l with
    | none => (none, none, [], false)
    | some g2 =>
      let r2 := check_detector_transformations g2
      (none, some r2.state, r2.fixes, r2.ok)

/-- Embedding of `run_checks`, lines 123-156: definition check, detector check with the
path fallback, sample `depends_on` check, goniometer dependency-tree check. -/
def run_checks (f : NXFile) : ChkRes NXFile :=
  let rd := check_definition f.definition
  let f1 := { f with definition := rd.state }
  if rd.ok = false then ⟨f1, rd.fixes, false⟩ else
  let dp := detector_phase f1.detPrimary f1.detLegacy
  let f2 := { f1 with detPrimary := dp.1, detLegacy := dp.2.1 }
  if dp.2.2.2 = false then ⟨f2, rd.fixes ++ dp.2.2.1, false⟩ else
  let rs := check_sample_depends_on f2.sample
  let f3 := { f2 with sample := rs.state }
  let rt := check_I19_dependency_tree f3.sampleTransf
  let f4 := { f3 with sampleTransf := rt.state }
  ⟨f4, rd.fixes ++ dp.2.2.1 ++ rs.fixes ++ rt.fixes, rt.ok⟩

/-- A detector transformations group with enough members for
`check_detector_transformations` to finish without a `KeyError`: the
resolved two-theta dataset carries a `depends_on` attribute and
`detector_z/det_z` exists with `vector` and `depends_on` attributes. -/
def wfDet (g : DetTransf) : Bool :=
  (match resolveTT g with
   | some (_, tt) => (getAttr tt.attrs "depends_on").isSome
   | none => false) &&
  (match g.det_z with
   | some dz => (getAttr dz "vector").isSome && (getAttr dz "depends_on").isSome
   | none => false)

/-! ## Writer side (`NexusWriter.py`) -/

/-- The goniometer scope consumed by `write_NXmx_nexus`: parallel lists of
axis names, start positions, end positions and increments. -/
structure Goniometer where
  axes : List String
  starts : List Rat
  ends : List Rat
  increments : List Rat

/-- The scan-range computation requested by the writer, recorded
symbolically: which `calculate_scan_range` arguments `write_NXmx_nexus`
passes (`calculate_scan_range` itself lives outside src/). -/
inductive ScanRangeCall where
  | fromIncrement (start stop inc : Rat)
  | fromFrameCount (start stop : Rat) (n : Nat)
deriving DecidableEq

/-- Modelled from the spec: `find_number_of_images` (imported from
`nxs_write.data_tools`, which is not under src/) aggregates the frame
counts of several data files; the spec describes the aggregation as a
read-only scan over the files with a simple sum reduction.  Each data file
is represented by the first dimension of its `data` dataset's shape. -/
def find_number_of_images (shapes : List Nat) : Nat := shapes.sum

/-- Embedding of `write_NXmx_nexus` lines 59-64: one data file contributes
`f["data"].shape[0]`; several files are aggregated via
`find_number_of_images`. -/
def num_images (shapes : List Nat) : Nat :=
  if shapes.length = 1 then shapes.headD 0 else find_number_of_images shapes

/-- Embedding of `write_NXmx_nexus` lines 69-82: `idx = goniometer.axes.index(osc_axis)`
and the increment-vs-frame-count branch.  The scan axis `osc_axis` comes
from `find_scan_axis`, which is not under src/, so it is a parameter. -/
def scan_range_call (g : Goniometer) (osc_axis : String) (shapes : List Nat) : ScanRangeCall :=
  let idx := g.axes.indexOf osc_axis
  if g.increments.getD idx 0 ≠ 0 then
    ScanRangeCall.fromIncrement (g.starts.getD idx 0) (g.ends.getD idx 0)
      (g.increments.getD idx 0)
  else
    ScanRangeCall.fromFrameCount (g.starts.getD idx 0) (g.ends.getD idx 0) (num_images shapes)

/-! ## Concrete states -/

/-- Modelled from the spec: the canonical detector transformations group as
the writer's NXclassWriters (not under src/) emit it — two-theta value `0`
based at `"."`, det_z vector `[0, 0, -1]` with the canonical dependency
target (spec section 6, canonical reference values). -/
def canonicalDetTransf : DetTransf :=
  { two_theta :=
      some { value := 0
             attrs := [("depends_on", HVal.bytes "."), ("units", HVal.bytes "deg"),
                       ("vector", HVal.vec [0, 0, 1])] }
    twotheta := none
    det_z := some [("depends_on", HVal.bytes detZDepPath), ("units", HVal.bytes "mm"),
                   ("vector", HVal.vec [0, 0, -1])] }

/-- Modelled from the spec: the canonical goniometer chain as written by the
NXclassWriters (not under src/): x -> y -> z -> phi -> kappa -> omega, with
omega rooted at `"."` (spec section 6). -/
def canonicalSampleTransf : SampleTransf :=
  { omega := [("depends_on", HVal.bytes ".")],
    kappa := [("depends_on", HVal.bytes "/entry/sample/transformations/omega")],
    phi := [("depends_on", HVal.bytes "/entry/sample/transformations/kappa")],
    sam_x := [("depends_on", HVal.bytes "/entry/sample/transformations/sam_y")],
    sam_y := [("depends_on", HVal.bytes "/entry/sample/transformations/sam_z")],
    sam_z := [("depends_on", HVal.bytes phiPath)] }

/-- Modelled from the spec: the file freshly written by `write_NXmx_nexus`.
The `entry/definition` value comes from src (`NexusWriter.py` line 94 writes
`np.string_("NXmx")`, a byte string); the detector and sample groups come
from the NXclassWriters, which are not under src/ and are taken as the
spec's canonical reference values. -/
def writer_output : NXFile :=
  { definition := some (HVal.bytes "NXmx"),
    detPrimary := some canonicalDetTransf,
    detLegacy := none,
    sample := ⟨some (HVal.bytes phiPath)⟩,
    sampleTransf := canonicalSampleTransf }

/-- A detector transformations group whose det_z `depends_on` holds a
non-canonical (legacy-style) path; everything else already canonical. -/
def detBad : DetTransf :=
  { two_theta :=
      some { value := 0
             attrs := [("depends_on", HVal.bytes "."), ("units", HVal.bytes "deg")] }
    twotheta := none
    det_z := some [("depends_on",
                    HVal.bytes "/entry/instrument/transformations/two_theta/two_theta"),
                   ("vector", HVal.vec [0, 0, -1]), ("units", HVal.bytes "mm")] }

/-- A file that is canonical except for the det_z `depends_on` typo. -/
def fileBad : NXFile :=
  { definition := some (HVal.vstr "NXmx"),
    detPrimary := some detBad,
    detLegacy := none,
    sample := ⟨some (HVal.bytes phiPath)⟩,
    sampleTransf := canonicalSampleTransf }

/-! ## Helper lemmas -/

theorem getAttr_setAttr (m : AttrMap) (k : String) (v : HVal) :
    getAttr (setAttr m k v) k = some v := by
  induction m with
  | nil => simp [setAttr, getAttr]
  | cons p rest ih =>
    obtain ⟨k1, v1⟩ := p
    by_cases h : k1 = k
    · simp [setAttr, getAttr, h]
    · simp [setAttr, getAttr, h, ih]

theorem getAttr_setAttr_ne (m : AttrMap) (k k2 : String) (v : HVal) (h : k2 ≠ k) :
    getAttr (setAttr m k v) k2 = getAttr m k2 := by
  induction m with
  | nil => simp [setAttr, getAttr, Ne.symm h]
  | cons p rest ih =>
    obtain ⟨k1, v1⟩ := p
    by_cases h1 : k1 = k
    · subst h1
      simp [setAttr, getAttr, Ne.symm h]
    · simp [setAttr, getAttr, h1, ih]

theorem fixTwoThetaValue_value (tt : TTGroup) : (fixTwoThetaValue tt).1.value = 0 := by
  by_cases h : tt.value = 0 <;> simp [fixTwoThetaValue, h]

theorem fixTwoThetaValue_attrs (tt : TTGroup) : (fixTwoThetaValue tt).1.attrs = tt.attrs := by
  by_cases h : tt.value = 0 <;> simp [fixTwoThetaValue, h]

theorem fixAxisDep_ok_dep (m : AttrMap) (c : String) (tag : Fix)
    (h : (fixAxisDep m c tag).ok = true) :
    getAttr (fixAxisDep m c tag).state "depends_on" = some (HVal.bytes c) := by
  cases hm : getAttr m "depends_on" with
  | none => simp [fixAxisDep, hm] at h
  | some dep =>
    by_cases hd : dep = HVal.bytes c
    · simp [fixAxisDep, hm, hd]
    · simp [fixAxisDep, hm, hd, getAttr_setAttr]

theorem fixAxisDep_ok_iff (m : AttrMap) (c : String) (tag : Fix) :
    (fixAxisDep m c tag).ok = true ↔ (getAttr m "depends_on").isSome = true := by
  cases hm : getAttr m "depends_on" with
  | none => simp [fixAxisDep, hm]
  | some dep => by_cases hd : dep = HVal.bytes c <;> simp [fixAxisDep, hm, hd]

theorem fixDetZVector_ok_vec (dz : AttrMap) (h : (fixDetZVector dz).ok = true) :
    getAttr (fixDetZVector dz).state "vector" = some (HVal.vec [0, 0, -1]) := by
  cases hm : getAttr dz "vector" with
  | none => simp [fixDetZVector, hm] at h
  | some v =>
    by_cases hv : v = HVal.vec [0, 0, -1]
    · simp [fixDetZVector, hm, hv]
    · simp [fixDetZVector, hm, hv, getAttr_setAttr]

theorem fixDetZVector_ok_iff (dz : AttrMap) :
    (fixDetZVector dz).ok = true ↔ (getAttr dz "vector").isSome = true := by
  cases hm : getAttr dz "vector" with
  | none => simp [fixDetZVector, hm]
  | some v => by_cases hv : v = HVal.vec [0, 0, -1] <;> simp [fixDetZVector, hm, hv]

theorem fixDetZVector_dep (dz : AttrMap) :
    getAttr (fixDetZVector dz).state "depends_on" = getAttr dz "depends_on" := by
  cases hm : getAttr dz "vector" with
  | none => simp [fixDetZVector, hm]
  | some v =>
    by_cases hv : v = HVal.vec [0, 0, -1]
    · simp [fixDetZVector, hm, hv]
    · have : "depends_on" ≠ "vector" := by decide
      simp [fixDetZVector, hm, hv, getAttr_setAttr_ne _ _ _ _ this]

theorem checkDetZDep_state (dz : AttrMap) : (checkDetZDep dz).state = dz := by
  unfold checkDetZDep
  split
  · rfl
  · split <;> rfl

theorem checkDetZDep_ok_iff (dz : AttrMap) :
    (checkDetZDep dz).ok = true ↔ (getAttr dz "depends_on").isSome = true := by
  cases hm : getAttr dz "depends_on" with
  | none => simp [checkDetZDep, hm]
  | some dep => by_cases hd : dep = HVal.bytes detZDepPath <;> simp [checkDetZDep, hm, hd]

theorem resolveTT_two_theta (g : DetTransf) (tt : TTGroup) (h : g.two_theta = some tt) :
    resolveTT g = some (true, tt) := by
  simp [resolveTT, h]

theorem resolveTT_eq_false (g : DetTransf) (tt : TTGroup)
    (h : resolveTT g = some (false, tt)) : g.two_theta = none ∧ g.twotheta = some tt := by
  unfold resolveTT at h
  cases hp : g.two_theta with
  | some tt1 => rw [hp] at h; simp at h
  | none =>
    rw [hp] at h
    cases hl : g.twotheta with
    | some tt2 => rw [hl] at h; simp_all
    | none => rw [hl] at h; simp at h

/-! ## Claim theorems -/

/-- C8: for every file whose `entry/definition` dataset does not read back
equal to `"NXmx"`, `check_definition` deletes the dataset and recreates it
with value `"NXmx"` (taking its single correction branch), after which the
value read back is `"NXmx"`; a file whose definition already equals
`"NXmx"` is left unchanged by this check, which never raises. -/
theorem check_definition_rewrites_to_NXmx (d : HVal) :
    (check_definition (some d)).ok = true ∧
    (d ≠ HVal.vstr "NXmx" →
      (check_definition (some d)).state = some (HVal.vstr "NXmx") ∧
      (check_definition (some d)).fixes = [Fix.definition]) ∧
    (d = HVal.vstr "NXmx" →
      (check_definition (some d)).state = some d ∧
      (check_definition (some d)).fixes = []) := by
  refine ⟨rfl, ?_, ?_⟩ <;> intro h <;>
    simp [check_definition, checkDefinitionVal, h]

/-- Witness for C8: a definition reading `"NXclassified"` is rewritten to
`"NXmx"`, and a definition already reading `"NXmx"` is left untouched. -/
theorem check_definition_rewrites_to_NXmx_witness :
    ((check_definition (some (HVal.vstr "NXclassified"))).state =
        some (HVal.vstr "NXmx") ∧
      (check_definition (some (HVal.vstr "NXclassified"))).fixes = [Fix.definition]) ∧
    ((check_definition (some (HVal.vstr "NXmx"))).state = some (HVal.vstr "NXmx") ∧
      (check_definition (some (HVal.vstr "NXmx"))).fixes = []) :=
  ⟨(check_definition_rewrites_to_NXmx (HVal.vstr "NXclassified")).2.1 (by decide),
   (check_definition_rewrites_to_NXmx (HVal.vstr "NXmx")).2.2 rfl⟩

/-- C4: when the detector check corrects a nonzero two-theta value, the
recreated dataset keeps exactly the attribute dict of the old one (every
key with its prior value), and only the value changes (to 0); the
correction branch is recorded. -/
theorem twoTheta_value_fix_preserves_attrs (tt : TTGroup) (h : tt.value ≠ 0) :
    (fixTwoThetaValue tt).1.value = 0 ∧
    (fixTwoThetaValue tt).1.attrs = tt.attrs ∧
    (∀ k, getAttr (fixTwoThetaValue tt).1.attrs k = getAttr tt.attrs k) ∧
    (fixTwoThetaValue tt).2 = [Fix.twoThetaValue] := by
  simp [fixTwoThetaValue, h]

/-- Witness for C4: a two-theta dataset with value `5` and a `units`
attribute is reset to `0` with `units` intact. -/
theorem twoTheta_value_fix_preserves_attrs_witness :
    (5 : Rat) ≠ 0 ∧
    (fixTwoThetaValue ⟨5, [("units", HVal.bytes "deg")]⟩).1.value = 0 ∧
    (fixTwoThetaValue ⟨5, [("units", HVal.bytes "deg")]⟩).1.attrs =
      [("units", HVal.bytes "deg")] :=
  ⟨by norm_num,
   (twoTheta_value_fix_preserves_attrs ⟨5, [("units", HVal.bytes "deg")]⟩ (by norm_num)).1,
   (twoTheta_value_fix_preserves_attrs ⟨5, [("units", HVal.bytes "deg")]⟩ (by norm_num)).2.1⟩

/-- C7: after `check_sample_depends_on` the sample group always holds a
`depends_on` dataset with the canonical value: created (without error) when
absent, deleted and recreated when present with any other value, untouched
when already correct. -/
theorem check_sample_depends_on_post (s : NXSample) :
    (check_sample_depends_on s).ok = true ∧
    (check_sample_depends_on s).state.depends_on = some (HVal.bytes phiPath) ∧
    (s.depends_on = some (HVal.bytes phiPath) →
      (check_sample_depends_on s).state = s ∧ (check_sample_depends_on s).fixes = []) ∧
    (s.depends_on = none →
      (check_sample_depends_on s).fixes = [Fix.sampleDepMissing]) ∧
    (∀ d, s.depends_on = some d → d ≠ HVal.bytes phiPath →
      (check_sample_depends_on s).fixes = [Fix.sampleDepWrong]) := by
  obtain ⟨dep⟩ := s
  cases dep with
  | none => simp [check_sample_depends_on]
  | some d =>
    by_cases h : d = HVal.bytes phiPath
    · subst h; simp [check_sample_depends_on]
    · simp [check_sample_depends_on, h]

/-- Witness for C7: a sample group without a `depends_on` dataset gets one
with the canonical value, and one with a wrong value gets it rewritten. -/
theorem check_sample_depends_on_post_witness :
    (check_sample_depends_on ⟨none⟩).state.depends_on = some (HVal.bytes phiPath) ∧
    (check_sample_depends_on ⟨none⟩).fixes = [Fix.sampleDepMissing] ∧
    (check_sample_depends_on ⟨some (HVal.bytes "omega")⟩).fixes = [Fix.sampleDepWrong] :=
  ⟨(check_sample_depends_on_post ⟨none⟩).2.1,
   (check_sample_depends_on_post ⟨none⟩).2.2.2.1 rfl,
   (check_sample_depends_on_post ⟨some (HVal.bytes "omega")⟩).2.2.2.2
     (HVal.bytes "omega") rfl (by decide)⟩

/-- C10: `write_NXmx_nexus` requests the scan range from start, end and
increment exactly when the scan axis's increment is nonzero; when the
increment is zero it requests it from start, end and the number of images,
which is the first file's data shape for a single data file and the
aggregated count for several. -/
theorem scan_range_mode_selection (g : Goniometer) (osc_axis : String) (shapes : List Nat) :
    (g.increments.getD (g.axes.indexOf osc_axis) 0 ≠ 0 →
      scan_range_call g osc_axis shapes =
        ScanRangeCall.fromIncrement (g.starts.getD (g.axes.indexOf osc_axis) 0)
          (g.ends.getD (g.axes.indexOf osc_axis) 0)
          (g.increments.getD (g.axes.indexOf osc_axis) 0)) ∧
    (g.increments.getD (g.axes.indexOf osc_axis) 0 = 0 →
      scan_range_call g osc_axis shapes =
        ScanRangeCall.fromFrameCount (g.starts.getD (g.axes.indexOf osc_axis) 0)
          (g.ends.getD (g.axes.indexOf osc_axis) 0) (num_images shapes)) ∧
    (∀ n, shapes = [n] → num_images shapes = n) ∧
    (shapes.length ≠ 1 → num_images shapes = find_number_of_images shapes) := by
  refine ⟨?_, ?_, ?_, ?_⟩
  · intro h
    simp only [scan_range_call]
    rw [if_pos h]
  · intro h
    simp only [scan_range_call]
    rw [if_neg (not_not_intro h)]
  · rintro n rfl; simp [num_images]
  · intro h; simp [num_images, h]

/-- Witness for C10: with scan axis `omega` carrying increment `1` the
increment form is chosen; with increment `0` the frame-count form is chosen
with the single file's shape. -/
theorem scan_range_mode_selection_witness :
    scan_range_call ⟨["omega", "phi"], [0, 1], [90, 1], [1, 0]⟩ "omega" [90, 1] =
      ScanRangeCall.fromIncrement 0 90 1 ∧
    scan_range_call ⟨["omega", "phi"], [0, 1], [90, 1], [0, 0]⟩ "omega" [900] =
      ScanRangeCall.fromFrameCount 0 90 900 ∧
    num_images [900] = 900 :=
  ⟨by
    have h := (scan_range_mode_selection ⟨["omega", "phi"], [0, 1], [90, 1], [1, 0]⟩
      "omega" [90, 1]).1 (by decide)
    rw [h]; rfl,
   by
    have h := (scan_range_mode_selection ⟨["omega", "phi"], [0, 1], [90, 1], [0, 0]⟩
      "omega" [900]).2.1 (by decide)
    rw [h]; rfl,
   (scan_range_mode_selection ⟨["omega"], [0], [90], [0]⟩ "omega" [900]).2.2.1 900 rfl⟩

/-- C1 (code bug): on a group whose det_z `depends_on` differs from the
canonical target, the fix branch is taken (the "Fixing typo in det_z
dependency" log) but, because source line 67 compares (`==`) instead of
assigning (`=`), the attribute is NOT corrected: after the call it still
holds the old value and differs from the canonical dependency target. -/
theorem detZ_dependency_not_corrected :
    (check_detector_transformations detBad).ok = true ∧
    (check_detector_transformations detBad).fixes = [Fix.detZDep] ∧
    (check_detector_transformations detBad).state = detBad ∧
    getAttr ((check_detector_transformations detBad).state.det_z.getD []) "depends_on" =
      some (HVal.bytes "/entry/instrument/transformations/two_theta/two_theta") ∧
    getAttr ((check_detector_transformations detBad).state.det_z.getD []) "depends_on" ≠
      some (HVal.bytes detZDepPath) := by
  decide

/-- C2 (code bug): on the file freshly written by `write_NXmx_nexus` the
checker does take a correction branch: `entry/definition` was written as
`np.string_("NXmx")` and reads back as the byte string `b"NXmx"`, which is
not Python-equal to the text literal `"NXmx"`, so `check_definition`
deletes and rewrites it.  No other check function takes a branch. -/
theorem fresh_write_triggers_definition_fix :
    (run_checks writer_output).ok = true ∧
    (run_checks writer_output).fixes = [Fix.definition] := by
  decide

/-- C3 (code bug): `run_checks` is not branch-idempotent.  On a file whose
det_z `depends_on` is non-canonical, the first run takes the det_z fix
branch without changing anything (source line 67 compares instead of
assigning), so the second run takes the same correction branch again. -/
theorem second_run_retakes_detZ_fix :
    (run_checks fileBad).ok = true ∧
    (run_checks fileBad).state = fileBad ∧
    (run_checks (run_checks fileBad).state).fixes = [Fix.detZDep] := by
  decide

/-- C6: whenever `check_I19_dependency_tree` returns (no `KeyError`), the
six goniometer axes realize exactly the canonical chain:
sam_x -> sam_y -> sam_z -> phi -> kappa -> omega -> ".". -/
theorem check_I19_dependency_tree_post (t : SampleTransf)
    (h : (check_I19_dependency_tree t).ok = true) :
    getAttr (check_I19_dependency_tree t).state.omega "depends_on" =
      some (HVal.bytes ".") ∧
    getAttr (check_I19_dependency_tree t).state.kappa "depends_on" =
      some (HVal.bytes "/entry/sample/transformations/omega") ∧
    getAttr (check_I19_dependency_tree t).state.phi "depends_on" =
      some (HVal.bytes "/entry/sample/transformations/kappa") ∧
    getAttr (check_I19_dependency_tree t).state.sam_x "depends_on" =
      some (HVal.bytes "/entry/sample/transformations/sam_y") ∧
    getAttr (check_I19_dependency_tree t).state.sam_y "depends_on" =
      some (HVal.bytes "/entry/sample/transformations/sam_z") ∧
    getAttr (check_I19_dependency_tree t).state.sam_z "depends_on" =
      some (HVal.bytes "/entry/sample/transformations/phi") := by
  unfold check_I19_dependency_tree at h ⊢
  by_cases h1 : (fixAxisDep t.omega "." Fix.omegaDep).ok = false
  · simp [h1] at h
  · by_cases h2 :
      (fixAxisDep t.kappa "/entry/sample/transformations/omega" Fix.kappaDep).ok = false
    · simp [h1, h2] at h
    · by_cases h3 :
        (fixAxisDep t.phi "/entry/sample/transformations/kappa" Fix.phiDep).ok = false
      · simp [h1, h2, h3] at h
      · by_cases h4 :
          (fixAxisDep t.sam_x "/entry/sample/transformations/sam_y" Fix.samxDep).ok = false
        · simp [h1, h2, h3, h4] at h
        · by_cases h5 :
            (fixAxisDep t.sam_y "/entry/sample/transformations/sam_z" Fix.samyDep).ok = false
          · simp [h1, h2, h3, h4, h5] at h
          · simp only [h1, h2, h3, h4, h5, if_false, ite_false, if_neg] at h ⊢
            simp at h h1 h2 h3 h4 h5
            simp [phiPath] at h ⊢
            exact ⟨fixAxisDep_ok_dep _ _ _ h1, fixAxisDep_ok_dep _ _ _ h2,
              fixAxisDep_ok_dep _ _ _ h3, fixAxisDep_ok_dep _ _ _ h4,
              fixAxisDep_ok_dep _ _ _ h5, by
                have := fixAxisDep_ok_dep t.sam_z phiPath Fix.samzDep (by simpa [phiPath] using h)
                simpa [phiPath] using this⟩

/-- Witness for C6: an empty-attribute chain errors out, but a group whose
six axes each carry some `depends_on` (here all wrong, set to `"x"`) is
rewritten to the canonical chain. -/
theorem check_I19_dependency_tree_post_witness :
    (check_I19_dependency_tree
      ⟨[("depends_on", HVal.bytes "x")], [("depends_on", HVal.bytes "x")],
       [("depends_on", HVal.bytes "x")], [("depends_on", HVal.bytes "x")],
       [("depends_on", HVal.bytes "x")], [("depends_on", HVal.bytes "x")]⟩).ok = true ∧
    getAttr (check_I19_dependency_tree
      ⟨[("depends_on", HVal.bytes "x")], [("depends_on", HVal.bytes "x")],
       [("depends_on", HVal.bytes "x")], [("depends_on", HVal.bytes "x")],
       [("depends_on", HVal.bytes "x")], [("depends_on", HVal.bytes "x")]⟩).state.sam_z
      "depends_on" = some (HVal.bytes "/entry/sample/transformations/phi") :=
  ⟨by decide,
   (check_I19_dependency_tree_post
     ⟨[("depends_on", HVal.bytes "x")], [("depends_on", HVal.bytes "x")],
      [("depends_on", HVal.bytes "x")], [("depends_on", HVal.bytes "x")],
      [("depends_on", HVal.bytes "x")], [("depends_on", HVal.bytes "x")]⟩
     (by decide)).2.2.2.2.2⟩

/-- C5: whenever `check_detector_transformations` returns (no `KeyError`),
the resolved two-theta dataset has value `0` and `depends_on` `"."`, and
det_z's `vector` attribute is `[0, 0, -1]`. -/
theorem check_detector_transformations_post (g : DetTransf)
    (h : (check_detector_transformations g).ok = true) :
    (∃ b tt, resolveTT (check_detector_transformations g).state = some (b, tt) ∧
      tt.value = 0 ∧ getAttr tt.attrs "depends_on" = some (HVal.bytes ".")) ∧
    (∃ dz, (check_detector_transformations g).state.det_z = some dz ∧
      getAttr dz "vector" = some (HVal.vec [0, 0, -1])) := by
  unfold check_detector_transformations at h ⊢
  cases hres : resolveTT g with
  | none => simp [hres] at h
  | some p =>
    obtain ⟨primary, tt0⟩ := p
    simp only [hres] at h ⊢
    cases hdz : g.det_z with
    | none => simp [hdz] at h
    | some dz0 =>
      simp only [hdz] at h ⊢
      by_cases h2 : (fixDetZVector dz0).ok = false
      · simp [h2] at h
      · by_cases h3 :
          (fixAxisDep (fixTwoThetaValue tt0).1.attrs "." Fix.twoThetaDep).ok = false
        · simp [h2, h3] at h
        · rw [if_neg h2, if_neg h3] at h ⊢
          dsimp only at h ⊢
          simp only [Bool.not_eq_false] at h2 h3
          constructor
          · cases primary with
            | true =>
              refine ⟨true,
                { value := (fixTwoThetaValue tt0).1.value,
                  attrs :=
                    (fixAxisDep (fixTwoThetaValue tt0).1.attrs "." Fix.twoThetaDep).state },
                ?_, ?_, ?_⟩
              · simp [setTT, resolveTT]
              · exact fixTwoThetaValue_value tt0
              · exact fixAxisDep_ok_dep _ _ _ h3
            | false =>
              have hnone := (resolveTT_eq_false g tt0 hres).1
              refine ⟨false,
                { value := (fixTwoThetaValue tt0).1.value,
                  attrs :=
                    (fixAxisDep (fixTwoThetaValue tt0).1.attrs "." Fix.twoThetaDep).state },
                ?_, ?_, ?_⟩
              · simp [setTT, resolveTT, hnone]
              · exact fixTwoThetaValue_value tt0
              · exact fixAxisDep_ok_dep _ _ _ h3
          · refine ⟨(checkDetZDep (fixDetZVector dz0).state).state, by simp, ?_⟩
            rw [checkDetZDep_state]
            exact fixDetZVector_ok_vec _ h2

/-- Witness for C5: a group with a nonzero two-theta value, a wrong base
and a wrong det_z vector is repaired to the canonical values. -/
theorem check_detector_transformations_post_witness :
    (check_detector_transformations
      ⟨some ⟨5, [("depends_on", HVal.bytes "omega")]⟩, none,
       some [("vector", HVal.vec [0, 0, 1]), ("depends_on", HVal.bytes detZDepPath)]⟩).ok
      = true ∧
    (∃ b tt, resolveTT (check_detector_transformations
      ⟨some ⟨5, [("depends_on", HVal.bytes "omega")]⟩, none,
       some [("vector", HVal.vec [0, 0, 1]), ("depends_on", HVal.bytes detZDepPath)]⟩).state
        = some (b, tt) ∧
      tt.value = 0 ∧ getAttr tt.attrs "depends_on" = some (HVal.bytes ".")) ∧
    (∃ dz, (check_detector_transformations
      ⟨some ⟨5, [("depends_on", HVal.bytes "omega")]⟩, none,
       some [("vector", HVal.vec [0, 0, 1]), ("depends_on", HVal.bytes detZDepPath)]⟩).state.det_z
        = some dz ∧ getAttr dz "vector" = some (HVal.vec [0, 0, -1])) := by
  have hok : (check_detector_transformations
      ⟨some ⟨5, [("depends_on", HVal.bytes "omega")]⟩, none,
       some [("vector", HVal.vec [0, 0, 1]), ("depends_on", HVal.bytes detZDepPath)]⟩).ok
      = true := by decide
  exact ⟨hok, (check_detector_transformations_post _ hok).1,
    (check_detector_transformations_post _ hok).2⟩

theorem wfDet_check_ok (g : DetTransf) (hw : wfDet g = true) :
    (check_detector_transformations g).ok = true := by
  unfold wfDet at hw
  unfold check_detector_transformations
  cases hres : resolveTT g with
  | none => rw [hres] at hw; simp at hw
  | some p =>
    obtain ⟨primary, tt0⟩ := p
    rw [hres] at hw
    simp only [hres]
    cases hdz : g.det_z with
    | none => rw [hdz] at hw; simp at hw
    | some dz0 =>
      rw [hdz] at hw
      simp only [hdz]
      simp at hw
      obtain ⟨hdep, hvec, hdzdep⟩ := hw
      have h2 : (fixDetZVector dz0).ok = true := (fixDetZVector_ok_iff dz0).mpr hvec
      have h3 : (fixAxisDep (fixTwoThetaValue tt0).1.attrs "." Fix.twoThetaDep).ok = true := by
        rw [fixAxisDep_ok_iff, fixTwoThetaValue_attrs]
        exact hdep
      have h4 : (checkDetZDep (fixDetZVector dz0).state).ok = true := by
        rw [checkDetZDep_ok_iff, fixDetZVector_dep]
        exact hdzdep
      rw [if_neg (by simp [h2]), if_neg (by simp [h3])]
      exact h4

theorem wfDet_of_check_ok (g : DetTransf)
    (h : (check_detector_transformations g).ok = true) : wfDet g = true := by
  unfold check_detector_transformations at h
  unfold wfDet
  cases hres : resolveTT g with
  | none => simp only [hres] at h; simp at h
  | some p =>
    obtain ⟨primary, tt0⟩ := p
    simp only [hres] at h ⊢
    cases hdz : g.det_z with
    | none => simp only [hdz] at h; simp at h
    | some dz0 =>
      simp only [hdz] at h ⊢
      by_cases h2 : (fixDetZVector dz0).ok = false
      · simp [h2] at h
      · by_cases h3 :
          (fixAxisDep (fixTwoThetaValue tt0).1.attrs "." Fix.twoThetaDep).ok = false
        · simp [h2, h3] at h
        · rw [if_neg h2, if_neg h3] at h
          dsimp only at h
          simp only [Bool.not_eq_false] at h2 h3
          have hdep : (getAttr tt0.attrs "depends_on").isSome = true := by
            have hx := (fixAxisDep_ok_iff (fixTwoThetaValue tt0).1.attrs "."
              Fix.twoThetaDep).mp h3
            rwa [fixTwoThetaValue_attrs] at hx
          have hvec := (fixDetZVector_ok_iff dz0).mp h2
          have hdzdep : (getAttr dz0 "depends_on").isSome = true := by
            have hx := (checkDetZDep_ok_iff (fixDetZVector dz0).state).mp h
            rwa [fixDetZVector_dep] at hx
          simp [hdep, hvec, hdzdep]

/-- A group present at the primary path but malformed: the
`detector_z/det_z` dataset is missing, so `check_detector_transformations`
raises `KeyError` although the candidate group itself exists. -/
def detMalformed : DetTransf :=
  ⟨some ⟨0, [("depends_on", HVal.bytes ".")]⟩, none, none⟩

/-- A legacy-path group with a wrong det_z vector: a `detZVector` fix in the
result can only come from checking this group. -/
def detLegacyWrongVec : DetTransf :=
  ⟨some ⟨0, [("depends_on", HVal.bytes ".")]⟩, none,
   some [("vector", HVal.vec [0, 0, 1]), ("depends_on", HVal.bytes detZDepPath)]⟩

/-- C9 counterexample: the legacy path is NOT consulted only when the
primary is absent, and the phase does NOT fail only when both candidates
are absent.  With a present-but-malformed primary group (missing det_z)
the `except KeyError` of `run_checks` lines 146-149 reroutes to the legacy
group, which is checked and mutated (its vector fix is recorded) although
the primary candidate is present; and with the same present primary but no
legacy group the operation fails although a candidate is present. -/
theorem detector_group_fallback_counterexample :
    ((detector_phase (some detMalformed) (some detLegacyWrongVec)).2.2.1 =
        [Fix.detZVector] ∧
      (detector_phase (some detMalformed) (some detLegacyWrongVec)).2.1 ≠
        some detLegacyWrongVec ∧
      (detector_phase (some detMalformed) (some detLegacyWrongVec)).2.2.2 = true) ∧
    (detector_phase (some detMalformed) none).2.2.2 = false := by
  decide

/-- C9 (amended): both fallback lookups try a primary candidate and then
exactly one legacy alternative before failing.  The two-theta dataset is
sought under the name `two_theta` and, only if absent, under `twotheta`,
failing exactly when both names are absent.  The detector check is
attempted on the primary path's group; when it succeeds the legacy slot is
left untouched and does not influence the result; the legacy group is
consulted exactly when the primary attempt raises `KeyError` — because the
primary group is absent, or present but missing a required inner member
(`check ok` is equivalent to `wfDet`) — and the phase fails exactly when
every present candidate's check raises (in particular when both candidates
are absent). -/
theorem fallback_lookup_semantics_amended :
    (∀ g : DetTransf, ∀ tt, g.two_theta = some tt → resolveTT g = some (true, tt)) ∧
    (∀ g : DetTransf, ∀ tt, g.two_theta = none → g.twotheta = some tt →
      resolveTT g = some (false, tt)) ∧
    (∀ g : DetTransf, resolveTT g = none ↔ g.two_theta = none ∧ g.twotheta = none) ∧
    (∀ g : DetTransf, (check_detector_transformations g).ok = true ↔ wfDet g = true) ∧
    (∀ g l, (check_detector_transformations g).ok = true →
      detector_phase (some g) l =
        (some (check_detector_transformations g).state, l,
          (check_detector_transformations g).fixes, true)) ∧
    (∀ g l2, (check_detector_transformations g).ok = false →
      detector_phase (some g) (some l2) =
        (some (check_detector_transformations g).state,
          some (check_detector_transformations l2).state,
          (check_detector_transformations g).fixes ++
            (check_detector_transformations l2).fixes,
          (check_detector_transformations l2).ok)) ∧
    (∀ l2, detector_phase none (some l2) =
      (none, some (check_detector_transformations l2).state,
        (check_detector_transformations l2).fixes,
        (check_detector_transformations l2).ok)) ∧
    (∀ p l, (detector_phase p l).2.2.2 = false ↔
      ((∀ g, p = some g → (check_detector_transformations g).ok = false) ∧
        (∀ g2, l = some g2 → (check_detector_transformations g2).ok = false))) := by
  refine ⟨?_, ?_, ?_, ?_, ?_, ?_, ?_, ?_⟩
  · exact fun g tt h => resolveTT_two_theta g tt h
  · intro g tt h1 h2
    simp [resolveTT, h1, h2]
  · intro g
    constructor
    · intro h
      cases hp : g.two_theta with
      | some tt => simp [resolveTT, hp] at h
      | none =>
        cases hl : g.twotheta with
        | some tt => simp [resolveTT, hp, hl] at h
        | none => exact ⟨rfl, rfl⟩
    · rintro ⟨h1, h2⟩
      simp [resolveTT, h1, h2]
  · exact fun g => ⟨wfDet_of_check_ok g, wfDet_check_ok g⟩
  · intro g l h
    simp [detector_phase, h]
  · intro g l2 h
    simp [detector_phase, h]
  · intro l2
    simp [detector_phase]
  · intro p l
    cases p with
    | none =>
      cases l with
      | none => simp [detector_phase]
      | some g2 => simp [detector_phase]
    | some g =>
      by_cases hok : (check_detector_transformations g).ok = true
      · simp [detector_phase, hok]
      · have hok2 : (check_detector_transformations g).ok = false :=
          Bool.not_eq_true _ ▸ (by simpa using hok)
        cases l with
        | none => simp [detector_phase, hok2]
        | some g2 => simp [detector_phase, hok2]

/-- Witness for C9 (amended): a present well-formed primary is used without
touching the legacy; a malformed primary falls through to the legacy; a
legacy-only file is checked at the legacy path; both-absent fails. -/
theorem fallback_lookup_semantics_amended_witness :
    resolveTT canonicalDetTransf =
      some (true, ⟨0, [("depends_on", HVal.bytes "."), ("units", HVal.bytes "deg"),
                       ("vector", HVal.vec [0, 0, 1])]⟩) ∧
    resolveTT ⟨none, some ⟨0, [("depends_on", HVal.bytes ".")]⟩, none⟩ =
      some (false, ⟨0, [("depends_on", HVal.bytes ".")]⟩) ∧
    detector_phase (some canonicalDetTransf) none =
      (some (check_detector_transformations canonicalDetTransf).state, none,
        (check_detector_transformations canonicalDetTransf).fixes, true) ∧
    detector_phase (some detMalformed) (some canonicalDetTransf) =
      (some (check_detector_transformations detMalformed).state,
        some (check_detector_transformations canonicalDetTransf).state,
        (check_detector_transformations detMalformed).fixes ++
          (check_detector_transformations canonicalDetTransf).fixes,
        (check_detector_transformations canonicalDetTransf).ok) ∧
    detector_phase none (some canonicalDetTransf) =
      (none, some (check_detector_transformations canonicalDetTransf).state,
        (check_detector_transformations canonicalDetTransf).fixes,
        (check_detector_transformations canonicalDetTransf).ok) ∧
    (detector_phase none none).2.2.2 = false :=
  ⟨fallback_lookup_semantics_amended.1 canonicalDetTransf _ rfl,
   fallback_lookup_semantics_amended.2.1 _ _ rfl rfl,
   fallback_lookup_semantics_amended.2.2.2.2.1 canonicalDetTransf none (by decide),
   fallback_lookup_semantics_amended.2.2.2.2.2.1 detMalformed canonicalDetTransf
     (by decide),
   fallback_lookup_semantics_amended.2.2.2.2.2.2.1 canonicalDetTransf,
   (fallback_lookup_semantics_amended.2.2.2.2.2.2.2 none none).mpr
     (by simp)⟩

end Nexgen
